import Mathlib

/-
Shallow embedding of the upload-to-result workflow of the ai-video-sales-coach
frontend.

Embedded source:
  * the Analysis Client (the axios-based module exporting analyzeVideo,
    getAnalysisHistory and getHealthCheck; in the repository snapshot it sits
    under src/frontend/src/utils/toast.js);
  * the Upload Workflow Controller (the onDrop callback of
    src/frontend/src/components/VideoUpload.js) together with the shared
    application state holding the current analysis
    (src/frontend/src/App.js: currentAnalysis / setCurrentAnalysis,
    passed to the controller as onAnalysisComplete).

Modelling conventions:
  * The ambient clock is an explicit parameter now : Nat (milliseconds since
    epoch); Date.now().toString() and new Date().toISOString() become the
    functions dateNowString and dateToISOString below, which only need to be
    injective renderings of the clock value.
  * The outcome of an HTTP request is an explicit Except NetError value:
    Except.ok carries the parsed 2xx response body, Except.error one of the
    failure reasons axios rejects with (network error, timeout, non-2xx
    status, malformed response).
  * A JSON response body is embedded as an AnalysisResult record whose inner
    analysis fields are Option-valued / list-valued, because the client
    performs no validation of response.data: a well-typed but partial body is
    representable and is returned as-is.
  * The simulated progress interval of onDrop is modelled by an explicit
    number of tick events (ticks : Nat) delivered by the event loop while the
    analyzeVideo call is outstanding; each tick runs the functional updater
    from the source.
-/

namespace VideoSalesCoach

/-- A dropped file as the controller sees it: its name and MIME type
(file.name, file.type in the source). -/
structure VFile where
  name : String
  type : String
deriving DecidableEq

/-- The coaching_feedback object of an analysis: three ordered lists of
free-text strings. -/
structure CoachingFeedback where
  strengths : List String
  improvements : List String
  recommendations : List String
deriving DecidableEq

/-- The metrics object of an analysis. -/
structure Metrics where
  speech_rate : Nat
  pause_frequency : Nat
  filler_words : Nat
  gesture_frequency : Nat
  eye_contact_percentage : Nat
deriving DecidableEq

/-- The nested analysis report. Fields are Option-valued (and emotions is an
open label-to-score list) because a server response body is arbitrary JSON
that the client republishes without validation; a partial body is
representable. -/
structure Analysis where
  overall_score : Option Nat
  confidence_level : Option Nat
  engagement_score : Option Nat
  speech_clarity : Option Nat
  body_language : Option Nat
  emotions : List (String × ℚ)
  transcript : Option String
  coaching_feedback : Option CoachingFeedback
  metrics : Option Metrics
deriving DecidableEq

/-- The unit of work output: one analysis record. -/
structure AnalysisResult where
  id : String
  filename : String
  analysis : Analysis
  created_at : String
deriving DecidableEq

/-- The reasons the axios request promise can reject: network failure,
timeout (the client configures a 300000 ms timeout), non-2xx HTTP status, or
a malformed response. -/
inductive NetError where
  | network : NetError
  | timeout : NetError
  | httpStatus : Nat → NetError
  | malformed : NetError
deriving DecidableEq

/-- Date.now().toString(): decimal rendering of the clock in milliseconds. -/
def dateNowString (now : Nat) : String :=
  toString now

/-- new Date().toISOString(): an injective rendering of the same clock value
(the exact ISO-8601 formatting is irrelevant to every claim; only its
dependence on the clock matters). -/
def dateToISOString (now : Nat) : String :=
  toString now ++ "Z"

/-- The mock AnalysisResult literal built in the catch branch of
analyzeVideo ("Return mock data for demo purposes"), verbatim from the
source. -/
def fallbackResult (file : VFile) (now : Nat) : AnalysisResult :=
  { id := dateNowString now
    filename := file.name
    analysis :=
      { overall_score := some 78
        confidence_level := some 82
        engagement_score := some 75
        speech_clarity := some 80
        body_language := some 76
        emotions :=
          [("confident", 0.65), ("nervous", 0.15),
           ("enthusiastic", 0.75), ("professional", 0.85)]
        transcript := some "Thank you for joining me today. I\x27m excited to present our new product solution that will revolutionize how your team approaches sales..."
        coaching_feedback := some
          { strengths :=
              ["Strong opening with clear enthusiasm",
               "Good eye contact maintained throughout",
               "Professional tone and delivery",
               "Clear articulation of key benefits"]
            improvements :=
              ["Could reduce filler words (\x27um\x27, \x27uh\x27)",
               "Try varying vocal pace for emphasis",
               "Consider more dynamic hand gestures",
               "Practice smoother transitions between points"]
            recommendations :=
              ["Practice the opening 30 seconds to build confidence",
               "Record yourself to identify speech patterns",
               "Use pause and emphasis techniques",
               "Rehearse with a timer to manage pacing"] }
        metrics := some
          { speech_rate := 165
            pause_frequency := 12
            filler_words := 8
            gesture_frequency := 23
            eye_contact_percentage := 78 } }
    created_at := dateToISOString now }

/-- analyzeVideo: POSTs the file to /api/v1/videos/analyze and returns
response.data; the catch-all branch converts every rejection into the mock
fallback record. The Lean function is total (its result type is
AnalysisResult, not Except), embedding the "never throws, always resolves"
behaviour of the source: the try/catch covers the whole body. -/
def analyzeVideo (file : VFile) (post : Except NetError AnalysisResult)
    (now : Nat) : AnalysisResult :=
  match post with
  | Except.ok body => body
  | Except.error _ => fallbackResult file now

/-- getAnalysisHistory: GETs /api/v1/videos/history and returns
response.data; the catch branch returns the empty list. -/
def getAnalysisHistory (fetch : Except NetError (List AnalysisResult)) :
    List AnalysisResult :=
  match fetch with
  | Except.ok l => l
  | Except.error _ => []

/-- The health-check response document; only its status field is relevant. -/
structure Health where
  status : String
deriving DecidableEq

/-- getHealthCheck: GETs /health and returns response.data; the catch branch
returns the record with status "unhealthy". -/
def getHealthCheck (fetch : Except NetError Health) : Health :=
  match fetch with
  | Except.ok h => h
  | Except.error _ => { status := "unhealthy" }

/-- The shared React state the controller touches: its own uploading flag and
uploadProgress value, and the application-level currentAnalysis slot
(App.js useState, written through the onAnalysisComplete callback, which App
binds to setCurrentAnalysis). -/
structure AppState where
  uploading : Bool
  uploadProgress : Nat
  currentAnalysis : Option AnalysisResult
deriving DecidableEq

/-- A user notification event raised through the toast API. -/
inductive Toast where
  | success : String → Toast
  | error : String → Toast
deriving DecidableEq

/-- One firing of the simulated-progress interval callback, verbatim from the
source: setUploadProgress(prev => prev >= 90 ? (clearInterval; 90) : prev + 10).
runTicks n p delivers up to n scheduled firings starting from progress p and
returns (whether the interval is still scheduled, the successive progress
values the updater produced). Once the callback has called clearInterval on
itself (prev >= 90), no further firing is delivered. -/
def runTicks : Nat → Nat → Bool × List Nat
  | 0, _ => (true, [])
  | Nat.succ n, p =>
    if p ≥ 90 then
      (false, [90])
    else
      let r := runTicks n (p + 10)
      (r.1, (p + 10) :: r.2)

/-- String.prototype.startsWith, as used in the validation
file.type.startsWith("video/"). It is embedded as a prefix test on the
underlying character lists (Lean's own String.startsWith is implemented with
byte-position loops the kernel cannot unfold, so it would not evaluate in
witnesses; on Unicode strings the two tests agree). -/
def startsWith (s pre : String) : Bool :=
  List.isPrefixOf pre.data s.data

/-- Everything observable about one run of the onDrop callback: the final
shared state, the files handed to analyzeVideo, the toasts raised, the
results passed to onAnalysisComplete, the navigate targets, every value
setUploadProgress was called with (in call order), and whether the simulated
progress interval is still scheduled when onDrop returns. -/
structure DropResult where
  finalState : AppState
  apiCalls : List VFile
  toasts : List Toast
  publications : List AnalysisResult
  navSignals : List String
  progressEvents : List Nat
  intervalAlive : Bool
deriving DecidableEq

/-- The onDrop callback of VideoUpload.js, run to completion on one drop
event.

Source control flow: file := acceptedFiles[0]; return if absent; reject with
an error toast if file.type does not start with "video/"; otherwise
setUploading(true), setUploadProgress(0), start the interval, await
analyzeVideo(file) (during which the event loop delivers `ticks` interval
firings), clearInterval, setUploadProgress(100), success toast,
onAnalysisComplete(result), navigate to /results, and in the finally block
setUploading(false), setUploadProgress(0).

The catch branch of the source is unreachable and therefore not represented:
the only statement between setInterval and clearInterval is the await of
analyzeVideo, which never rejects (its own try/catch covers its whole body),
and the remaining statements are state setters. Consequently clearInterval is
reached on every realizable path through the accepted branch, which is why
intervalAlive is false on every exit. -/
def onDrop (s : AppState) (acceptedFiles : List VFile)
    (post : Except NetError AnalysisResult) (now : Nat) (ticks : Nat) :
    DropResult :=
  match acceptedFiles with
  | [] =>
    { finalState := s, apiCalls := [], toasts := [], publications := []
      navSignals := [], progressEvents := [], intervalAlive := false }
  | file :: _ =>
    if ! startsWith file.type "video/" then
      { finalState := s, apiCalls := []
        toasts := [Toast.error "Please upload a video file"]
        publications := [], navSignals := [], progressEvents := []
        intervalAlive := false }
    else
      let tickRun := runTicks ticks 0
      let result := analyzeVideo file post now
      { finalState :=
          { uploading := false, uploadProgress := 0
            currentAnalysis := some result }
        apiCalls := [file]
        toasts := [Toast.success "Video analyzed successfully!"]
        publications := [result]
        navSignals := ["/results"]
        progressEvents := 0 :: tickRun.2 ++ [100, 0]
        intervalAlive := false }

/-- A concrete idle shared state, for witnesses. -/
def idleState : AppState :=
  { uploading := false, uploadProgress := 0, currentAnalysis := none }

/-- A concrete video file, for witnesses and counterexamples. -/
def demoFile : VFile :=
  { name := "demo.mp4", type := "video/mp4" }

/-- A concrete non-video file, for witnesses. -/
def pngFile : VFile :=
  { name := "pic.png", type := "image/png" }

/-- A well-typed but partial 2xx response body: the analysis object lacks all
five percentage fields, has an empty emotions mapping and no feedback lists.
The client republishes such a body without validation. -/
def sparseBody : AnalysisResult :=
  { id := "srv-1"
    filename := "demo.mp4"
    analysis :=
      { overall_score := none, confidence_level := none
        engagement_score := none, speech_clarity := none
        body_language := none, emotions := [], transcript := none
        coaching_feedback := none, metrics := none }
    created_at := "2024-03-01T12:00:00.000Z" }

/-- A complete 2xx response body with a service-supplied created_at, for the
pass-through scenario. -/
def serverBody : AnalysisResult :=
  { id := "srv-2"
    filename := "pitch.mp4"
    analysis :=
      { overall_score := some 91, confidence_level := some 88
        engagement_score := some 84, speech_clarity := some 90
        body_language := some 87
        emotions := [("confident", 0.9)]
        transcript := some "Hello."
        coaching_feedback := some
          { strengths := ["s1"], improvements := ["i1"]
            recommendations := ["r1"] }
        metrics := some
          { speech_rate := 150, pause_frequency := 10, filler_words := 2
            gesture_frequency := 20, eye_contact_percentage := 80 } }
    created_at := "2021-07-07T07:07:07.000Z" }

/-- Every progress value the interval updater emits stays at or below the 90
ceiling, provided it starts at a multiple of ten not above 90 (the controller
starts it at 0). -/
theorem runTicks_le (n : Nat) :
    ∀ p : Nat, p ≤ 90 → p % 10 = 0 → ∀ x ∈ (runTicks n p).2, x ≤ 90 := by
  induction n with
  | zero =>
    intro p _ _ x hx
    simp [runTicks] at hx
  | succ n ih =>
    intro p h1 h2 x hx
    by_cases hp : p ≥ 90
    · simp [runTicks, hp] at hx
      omega
    · simp [runTicks, hp] at hx
      rcases hx with rfl | hx
      · omega
      · exact ih (p + 10) (by omega) (by omega) x hx

/-- The successive progress values the interval updater emits form a
non-decreasing chain starting from its initial value. -/
theorem runTicks_chain (n : Nat) :
    ∀ p : Nat, p ≤ 90 → p % 10 = 0 →
      List.Chain' (· ≤ ·) (p :: (runTicks n p).2) := by
  induction n with
  | zero =>
    intro p _ _
    simp [runTicks]
  | succ n ih =>
    intro p h1 h2
    by_cases hp : p ≥ 90
    · simp [runTicks, hp]
      omega
    · have hrec := ih (p + 10) (by omega) (by omega)
      simp only [runTicks, hp, if_false, ite_false, List.chain'_cons]
      refine ⟨by omega, ?_⟩
      exact hrec

/-- Appending a value at least as large as every element of a non-decreasing
list keeps the list non-decreasing. -/
theorem chain_le_concat (a : Nat) :
    ∀ l : List Nat, List.Chain' (· ≤ ·) l → (∀ x ∈ l, x ≤ a) →
      List.Chain' (· ≤ ·) (l ++ [a]) := by
  intro l
  induction l with
  | nil =>
    intro _ _
    simp
  | cons x t ih =>
    intro hc hle
    cases t with
    | nil =>
      exact List.chain'_cons.mpr ⟨hle x (by simp), List.chain'_singleton a⟩
    | cons y t2 =>
      have h1 := List.chain'_cons.mp hc
      have h2 := ih h1.2 (fun z hz => hle z (List.mem_cons_of_mem x hz))
      exact List.chain'_cons.mpr ⟨h1.1, h2⟩

/-- Dropping the last element of a list ending in a singleton removes it. -/
theorem dropLast_concat_single (l : List Nat) (a : Nat) :
    (l ++ [a]).dropLast = l := by
  simp

/-- The last element of a list ending in a singleton is that singleton. -/
theorem getLast_concat_single (l : List Nat) (a : Nat) :
    (l ++ [a]).getLast? = some a := by
  simp

/-- Claim C1: the analyze operation never rejects; in the embedding its
result type is AnalysisResult (not Except), so totality of the definition is
the "always resolves" contract, and on every failure reason of the remote
POST the resolved value is the fallback record whose filename equals the
input file name and whose analysis.overall_score is the fixed value 78. -/
theorem analyzeVideo_error_resolves_fallback (file : VFile) (e : NetError)
    (now : Nat) :
    (analyzeVideo file (Except.error e) now).filename = file.name ∧
    (analyzeVideo file (Except.error e) now).analysis.overall_score =
      some 78 :=
  ⟨rfl, rfl⟩

/-- Claim C2: a dropped file whose MIME type does not start with "video/" is
rejected without calling analyzeVideo; exactly one error toast is raised, no
publication or navigation happens, and the shared state (uploading flag,
progress value, current-analysis slot) is returned unchanged. -/
theorem onDrop_rejects_non_video (s : AppState) (file : VFile)
    (rest : List VFile) (post : Except NetError AnalysisResult)
    (now ticks : Nat) (h : startsWith file.type "video/" = false) :
    (onDrop s (file :: rest) post now ticks).apiCalls = [] ∧
    (onDrop s (file :: rest) post now ticks).toasts =
      [Toast.error "Please upload a video file"] ∧
    (onDrop s (file :: rest) post now ticks).finalState = s ∧
    (onDrop s (file :: rest) post now ticks).publications = [] ∧
    (onDrop s (file :: rest) post now ticks).navSignals = [] := by
  simp [onDrop, h]

/-- Witness for onDrop_rejects_non_video at a concrete image/png drop. -/
theorem onDrop_rejects_non_video_witness :
    startsWith pngFile.type "video/" = false ∧
    ((onDrop idleState [pngFile] (Except.error NetError.network) 0 0).apiCalls
        = [] ∧
      (onDrop idleState [pngFile] (Except.error NetError.network) 0 0).toasts
        = [Toast.error "Please upload a video file"] ∧
      (onDrop idleState [pngFile] (Except.error NetError.network) 0
          0).finalState = idleState ∧
      (onDrop idleState [pngFile] (Except.error NetError.network) 0
          0).publications = [] ∧
      (onDrop idleState [pngFile] (Except.error NetError.network) 0
          0).navSignals = []) :=
  ⟨by decide,
    onDrop_rejects_non_video idleState pngFile []
      (Except.error NetError.network) 0 0 (by decide)⟩

/-- Claim C3: within an accepted submission the successive values of the
progress indicator start at 0, form a non-decreasing chain up to the
post-completion reset, never exceed 100, equal exactly 100 at the moment the
AnalysisResult is published (the value set immediately before the success
toast, publication and navigation), and are reset to 0 when the workflow
returns to Idle. -/
theorem onDrop_progress_invariant (s : AppState) (file : VFile)
    (rest : List VFile) (post : Except NetError AnalysisResult)
    (now ticks : Nat) (h : startsWith file.type "video/" = true) :
    (onDrop s (file :: rest) post now ticks).progressEvents.head? = some 0 ∧
    List.Chain' (· ≤ ·)
      (onDrop s (file :: rest) post now ticks).progressEvents.dropLast ∧
    (∀ x ∈ (onDrop s (file :: rest) post now ticks).progressEvents,
      x ≤ 100) ∧
    (onDrop s (file :: rest) post now
        ticks).progressEvents.dropLast.getLast? = some 100 ∧
    (onDrop s (file :: rest) post now ticks).progressEvents.getLast? =
      some 0 ∧
    (onDrop s (file :: rest) post now ticks).finalState.uploadProgress =
      0 := by
  have hev : (onDrop s (file :: rest) post now ticks).progressEvents =
      ((0 :: (runTicks ticks 0).2) ++ [100]) ++ [0] := by
    simp [onDrop, h]
  have hle := runTicks_le ticks 0 (by omega) (by omega)
  have hchain := runTicks_chain ticks 0 (by omega) (by omega)
  have hfs : (onDrop s (file :: rest) post now
      ticks).finalState.uploadProgress = 0 := by
    simp [onDrop, h]
  refine ⟨?_, ?_, ?_, ?_, ?_, hfs⟩
  · rw [hev]
    rfl
  · rw [hev, dropLast_concat_single]
    refine chain_le_concat 100 (0 :: (runTicks ticks 0).2) hchain ?_
    intro x hx
    rcases List.mem_cons.mp hx with rfl | hx2
    · omega
    · have := hle x hx2
      omega
  · rw [hev]
    intro x hx
    simp only [List.mem_append, List.mem_cons, List.mem_singleton,
      List.not_mem_nil, or_false] at hx
    rcases hx with ((rfl | hx3) | rfl) | rfl
    · omega
    · have := hle x hx3
      omega
    · omega
    · omega
  · rw [hev, dropLast_concat_single]
    exact getLast_concat_single _ _
  · rw [hev]
    exact getLast_concat_single _ _

/-- Witness for onDrop_progress_invariant at a concrete accepted drop with
twelve interval firings (enough for the interval to reach the 90 ceiling and
clear itself). -/
theorem onDrop_progress_invariant_witness :
    startsWith demoFile.type "video/" = true ∧
    ((onDrop idleState [demoFile] (Except.error NetError.malformed) 0
        12).progressEvents.head? = some 0 ∧
      List.Chain' (· ≤ ·)
        (onDrop idleState [demoFile] (Except.error NetError.malformed) 0
          12).progressEvents.dropLast ∧
      (∀ x ∈ (onDrop idleState [demoFile] (Except.error NetError.malformed)
          0 12).progressEvents, x ≤ 100) ∧
      (onDrop idleState [demoFile] (Except.error NetError.malformed) 0
          12).progressEvents.dropLast.getLast? = some 100 ∧
      (onDrop idleState [demoFile] (Except.error NetError.malformed) 0
          12).progressEvents.getLast? = some 0 ∧
      (onDrop idleState [demoFile] (Except.error NetError.malformed) 0
          12).finalState.uploadProgress = 0) :=
  ⟨by decide,
    onDrop_progress_invariant idleState demoFile []
      (Except.error NetError.malformed) 0 12 (by decide)⟩

/-- Claim C4: every accepted submission completes (the Analysis Client always
resolves) and yields exactly one publication — the single
onAnalysisComplete call with the resolved result — together with exactly one
success toast and exactly one navigation signal; no partial or duplicate
publications. -/
theorem onDrop_single_publication (s : AppState) (file : VFile)
    (rest : List VFile) (post : Except NetError AnalysisResult)
    (now ticks : Nat) (h : startsWith file.type "video/" = true) :
    (onDrop s (file :: rest) post now ticks).publications =
      [analyzeVideo file post now] ∧
    (onDrop s (file :: rest) post now ticks).toasts =
      [Toast.success "Video analyzed successfully!"] ∧
    (onDrop s (file :: rest) post now ticks).navSignals = ["/results"] := by
  simp [onDrop, h]

/-- Witness for onDrop_single_publication at a concrete accepted drop whose
remote call times out. -/
theorem onDrop_single_publication_witness :
    startsWith demoFile.type "video/" = true ∧
    ((onDrop idleState [demoFile] (Except.error NetError.timeout) 5
        3).publications =
        [analyzeVideo demoFile (Except.error NetError.timeout) 5] ∧
      (onDrop idleState [demoFile] (Except.error NetError.timeout) 5
          3).toasts = [Toast.success "Video analyzed successfully!"] ∧
      (onDrop idleState [demoFile] (Except.error NetError.timeout) 5
          3).navSignals = ["/results"]) :=
  ⟨by decide,
    onDrop_single_publication idleState demoFile []
      (Except.error NetError.timeout) 5 3 (by decide)⟩

/-- Claim C5: on every run of onDrop — empty drop, rejected file, or accepted
submission with any network outcome and any number of interval firings — the
simulated progress interval is no longer scheduled when the workflow has left
the Uploading state. On the accepted path clearInterval is always reached
because the awaited analyzeVideo call never rejects (its catch-all absorbs
every failure), so the catch branch of onDrop is unreachable. -/
theorem onDrop_interval_released (s : AppState) (files : List VFile)
    (post : Except NetError AnalysisResult) (now ticks : Nat) :
    (onDrop s files post now ticks).intervalAlive = false := by
  cases files with
  | nil => rfl
  | cons f rest =>
    by_cases h : startsWith f.type "video/" = true
    · simp [onDrop, h]
    · simp [onDrop, h]

/-- Claim C6, counterexample: a successful (2xx) resolution is republished
without validation, so a well-formed JSON body whose analysis object lacks
the percentage fields, has an empty emotions mapping and no feedback lists is
published exactly as received — the claim fails for real server responses. -/
theorem analyzeVideo_ok_body_unvalidated :
    (analyzeVideo demoFile (Except.ok sparseBody) 0).analysis.overall_score =
      none ∧
    (analyzeVideo demoFile (Except.ok sparseBody) 0).analysis.emotions =
      [] ∧
    (analyzeVideo demoFile (Except.ok
      sparseBody) 0).analysis.coaching_feedback = none :=
  ⟨rfl, rfl, rfl⟩

/-- Claim C6, amended: every fallback resolution of the analyze operation
carries all five percentage fields, a non-empty emotions mapping and all
three coaching-feedback lists; a 2xx server body is republished unvalidated
and need not satisfy this. -/
theorem analyzeVideo_fallback_complete (file : VFile) (e : NetError)
    (now : Nat) :
    ((analyzeVideo file (Except.error e)
        now).analysis.overall_score).isSome = true ∧
    ((analyzeVideo file (Except.error e)
        now).analysis.confidence_level).isSome = true ∧
    ((analyzeVideo file (Except.error e)
        now).analysis.engagement_score).isSome = true ∧
    ((analyzeVideo file (Except.error e)
        now).analysis.speech_clarity).isSome = true ∧
    ((analyzeVideo file (Except.error e)
        now).analysis.body_language).isSome = true ∧
    (analyzeVideo file (Except.error e) now).analysis.emotions ≠ [] ∧
    ((analyzeVideo file (Except.error e)
        now).analysis.coaching_feedback).isSome = true :=
  ⟨rfl, rfl, rfl, rfl, rfl, fun hnil => List.cons_ne_nil _ _ hnil, rfl⟩

/-- Claim C7: when the remote call resolves with a well-formed 2xx body, the
controller publishes exactly that body — the same record reaches the
onAnalysisComplete callback and the shared current-analysis slot, so a
service-supplied created_at is not overwritten. -/
theorem onDrop_publishes_server_body (s : AppState) (file : VFile)
    (rest : List VFile) (body : AnalysisResult) (now ticks : Nat)
    (h : startsWith file.type "video/" = true) :
    (onDrop s (file :: rest) (Except.ok body) now ticks).publications =
      [body] ∧
    (onDrop s (file :: rest) (Except.ok body) now
        ticks).finalState.currentAnalysis = some body := by
  simp [onDrop, h, analyzeVideo]

/-- Witness for onDrop_publishes_server_body at a concrete accepted drop with
a complete server body carrying its own created_at. -/
theorem onDrop_publishes_server_body_witness :
    startsWith demoFile.type "video/" = true ∧
    ((onDrop idleState [demoFile] (Except.ok serverBody) 9
        4).publications = [serverBody] ∧
      (onDrop idleState [demoFile] (Except.ok serverBody) 9
          4).finalState.currentAnalysis = some serverBody) :=
  ⟨by decide,
    onDrop_publishes_server_body idleState demoFile [] serverBody 9 4
      (by decide)⟩

/-- Claim C8, counterexample: two failing calls with the same input file made
at different clock readings do not yield identical AnalysisResult values —
the fallback id is Date.now().toString() and created_at is
new Date().toISOString(), both derived from the call time. -/
theorem analyzeVideo_fallback_clock_dependent :
    analyzeVideo demoFile (Except.error NetError.network) 0 ≠
      analyzeVideo demoFile (Except.error NetError.network) 1 := by
  intro h
  exact absurd (congrArg AnalysisResult.id h) (by decide)

/-- Claim C8, amended: the fallback is deterministic given the clock — two
failing calls with the same input file and the same clock reading yield
identical AnalysisResult values whatever the failure reasons, and every field
other than the clock-derived id and created_at (in particular the whole
analysis object and the filename) is identical even across different clock
readings. -/
theorem analyzeVideo_fallback_deterministic (file : VFile) (e e' : NetError)
    (now now' : Nat) :
    analyzeVideo file (Except.error e) now =
      analyzeVideo file (Except.error e') now ∧
    (analyzeVideo file (Except.error e) now).analysis =
      (analyzeVideo file (Except.error e') now').analysis ∧
    (analyzeVideo file (Except.error e) now).filename =
      (analyzeVideo file (Except.error e') now').filename :=
  ⟨rfl, rfl, rfl⟩

/-- Claim C9: getAnalysisHistory and getHealthCheck are total (never throw);
on every failure reason the former resolves with the empty sequence and the
latter with the fixed record whose status is "unhealthy", and repeated
health checks with the service down return that same value every time. -/
theorem history_and_health_absorb_failures (e e' : NetError) :
    getAnalysisHistory (Except.error e) = [] ∧
    getHealthCheck (Except.error e) = { status := "unhealthy" } ∧
    getHealthCheck (Except.error e) = getHealthCheck (Except.error e') :=
  ⟨rfl, rfl, rfl⟩

/-- Claim C10: a drop event with an empty accepted-files list returns
immediately with no observable effect: no toast, no network call, no
publication, no navigation, no progress event, and the shared state is
returned unchanged. -/
theorem onDrop_no_file_no_effect (s : AppState)
    (post : Except NetError AnalysisResult) (now ticks : Nat) :
    onDrop s [] post now ticks =
      { finalState := s, apiCalls := [], toasts := [], publications := []
        navSignals := [], progressEvents := [], intervalAlive := false } :=
  rfl

end VideoSalesCoach
